import Mathlib

/-!
Verification development for the `libdtrace-rs` wrapper (`src/wrapper.rs`).

The repository is a thin Rust wrapper around the native libdtrace engine.
Pure control flow of each `dtrace_hdl` method is translated here from
`src/wrapper.rs`.  The native engine itself is an external collaborator: it is
modelled as a record of native-call results (`Engine`).  The crate's `types`
and `utils` modules are part of the repository but are not in `src/`; the
values they provide (`Error`, `dtrace_status`, `dtrace_aggwalk_order`,
the work-status enum) are modelled from the spec, as noted on each
definition.

Rust strings are represented by their UTF-8 bytes (`RStr`), so that the
`CString`/`CStr` boundary (NUL checks, UTF-8 validation) is explicit.
A wrapper operation that panics (an `unwrap` failing) is modelled as `none`.
-/

/-- Bytes of a Rust string slice (`&str` / byte content handed to `CString`). -/
abbrev RStr := List Nat

/-- Model of `std::ffi::CString::new`: fails exactly when the input bytes
contain a NUL byte (any NUL in the input is interior, since `CString`
appends the terminator itself). -/
def cstring_new (s : RStr) : Option RStr :=
  if 0 ∈ s then none else some s

/-- UTF-8 continuation byte test (`0x80..=0xBF`). -/
def utf8_cont (b : Nat) : Bool := 0x80 ≤ b && b ≤ 0xBF

/-- Model of the UTF-8 validation performed by Rust's `str::from_utf8`
(used by `CStr::to_str`): ASCII, 2-, 3- and 4-byte sequences with the
standard exclusions of overlong encodings, surrogates and values above
`U+10FFFF`. -/
def utf8Valid : List Nat → Bool
  | [] => true
  | b :: rest =>
    if b ≤ 0x7F then utf8Valid rest
    else if 0xC2 ≤ b && b ≤ 0xDF then
      match rest with
      | c1 :: r => utf8_cont c1 && utf8Valid r
      | [] => false
    else if b = 0xE0 then
      match rest with
      | c1 :: c2 :: r => (0xA0 ≤ c1 && c1 ≤ 0xBF) && utf8_cont c2 && utf8Valid r
      | _ => false
    else if (0xE1 ≤ b && b ≤ 0xEC) || b = 0xEE || b = 0xEF then
      match rest with
      | c1 :: c2 :: r => utf8_cont c1 && utf8_cont c2 && utf8Valid r
      | _ => false
    else if b = 0xED then
      match rest with
      | c1 :: c2 :: r => (0x80 ≤ c1 && c1 ≤ 0x9F) && utf8_cont c2 && utf8Valid r
      | _ => false
    else if b = 0xF0 then
      match rest with
      | c1 :: c2 :: c3 :: r =>
        (0x90 ≤ c1 && c1 ≤ 0xBF) && utf8_cont c2 && utf8_cont c3 && utf8Valid r
      | _ => false
    else if 0xF1 ≤ b && b ≤ 0xF3 then
      match rest with
      | c1 :: c2 :: c3 :: r =>
        utf8_cont c1 && utf8_cont c2 && utf8_cont c3 && utf8Valid r
      | _ => false
    else if b = 0xF4 then
      match rest with
      | c1 :: c2 :: c3 :: r =>
        (0x80 ≤ c1 && c1 ≤ 0x8F) && utf8_cont c2 && utf8_cont c3 && utf8Valid r
      | _ => false
    else false

/-- Model of `CStr::to_str`: succeeds with the same bytes exactly when they
are valid UTF-8. -/
def cstr_to_str (s : RStr) : Option RStr :=
  if utf8Valid s then some s else none

/-- Modelled from the spec: the crate's `utils::Error` (not under `src/`),
the Error Model's structured error value wrapping the engine-supplied
numeric code. -/
structure Error where
  code : Int
  deriving DecidableEq

/-- Modelled from the spec: the native work-status enumeration
`dtrace_workstatus_t` (bindings not under `src/`) with members
Okay (more work expected), Done (tracing completed) and Error. -/
inductive dtrace_workstatus_t
  | ERROR
  | OKAY
  | DONE
  deriving DecidableEq

/-- Modelled from the spec: the crate's `types::dtrace_status` (not under
`src/`), an opaque status snapshot built from the native status word via
`dtrace_status::from(status as u32)`. -/
structure dtrace_status_t where
  raw : Nat
  deriving DecidableEq

/-- The ordering-policy enumeration `types::dtrace_aggwalk_order`.  The
module itself is not under `src/`, but the exhaustive match in
`src/wrapper.rs` lines 575-603 names exactly these ten variants. -/
inductive dtrace_aggwalk_order
  | None
  | Sorted
  | KeySorted
  | ValSorted
  | KeyVarSorted
  | ValVarSorted
  | KeyRevSorted
  | ValRevSorted
  | KeyVarRevSorted
  | ValVarRevSorted
  deriving DecidableEq, Fintype

/-- The nine distinct native comparator walks that
`dtrace_aggregate_walk` dispatches to (`dtrace_aggregate_walk`,
`_sorted`, `_keysorted`, `_keyvarsorted`, `_valvarsorted`,
`_keyrevsorted`, `_valrevsorted`, `_keyvarrevsorted`,
`_valvarrevsorted`). -/
inductive WalkKind
  | unsorted
  | sorted
  | keysorted
  | keyvarsorted
  | valvarsorted
  | keyrevsorted
  | valrevsorted
  | keyvarrevsorted
  | valvarrevsorted
  deriving DecidableEq, Fintype

/-- An aggregation record: a key and an aggregated value (the payload is
opaque to the wrapper; only the comparator-relevant content is modelled). -/
structure AggRecord where
  key : Int
  value : Int
  deriving DecidableEq

/-- Model of the native libdtrace engine boundary (an external collaborator,
not code of this repository).  Each field gives the value the corresponding
native call returns; the wrapper's own logic never looks inside the opaque
handles. -/
structure Engine where
  /-- `dtrace_open(version, flags, &mut errp)`: the returned connection
  pointer (`none` = null) and the value written to `errp`. -/
  openNative : Int → Int → Option Nat × Int
  /-- `dtrace_errno(handle)`. -/
  errnoNative : Nat → Int
  /-- `dtrace_go(handle)` return status. -/
  goNative : Nat → Int
  /-- `dtrace_stop(handle)` return status. -/
  stopNative : Nat → Int
  /-- `dtrace_status(handle)` raw return value (`-1` = error). -/
  statusNative : Nat → Int
  /-- `dtrace_aggregate_snap(handle)` return status. -/
  aggSnapNative : Nat → Int
  /-- `dtrace_work(handle, file, chew, chewrec, arg)` work status. -/
  workNative : Nat → Option Nat → Nat → Nat → Option Nat → dtrace_workstatus_t
  /-- `dtrace_stmt_iter` engine-side status for the handle: `0` when the
  engine itself succeeds, nonzero when the engine fails. -/
  stmtIterStatus : Nat → Int
  /-- `dtrace_program_strcompile(handle, program, spec, flags, argc, argv)`:
  the returned program pointer (`none` = null). -/
  strcompileNative : Nat → RStr → Nat → Nat → Nat → List RStr → Option Nat
  /-- Modelled from the spec: which option names the engine accepts
  (fake backend option catalog). -/
  optKnown : RStr → Bool
  /-- Modelled from the spec: the engine's reinterpretation of an option
  value string in its integer form. -/
  optParse : RStr → Int
  /-- Modelled from the spec: the global error-message table consulted by
  `dtrace_errmsg` with a null handle. -/
  globalMsg : Int → RStr
  /-- Modelled from the spec: whether an error code is specific to the given
  session (per-handle table overrides apply only to such codes). -/
  sessionSpecific : Nat → Int → Bool
  /-- Modelled from the spec: the per-handle error-message table. -/
  sessionMsg : Nat → Int → RStr

/-- Modelled from the spec: native `dtrace_errmsg` consults the per-handle
error table only when given a session handle and the code is specific to
that session; otherwise the global table answers ("global and per-handle
error tables agree for codes not specific to a session"). -/
def Engine.errmsgNative (e : Engine) (handle : Option Nat) (errno : Int) : RStr :=
  match handle with
  | none => e.globalMsg errno
  | some s => if e.sessionSpecific s errno then e.sessionMsg s errno else e.globalMsg errno

/-- Modelled from the spec: `utils::Error::from(&dtrace_hdl)` (not under
`src/`) wraps the handle's current engine error code. -/
def Error.fromHandle (e : Engine) (h : Nat) : Error :=
  ⟨e.errnoNative h⟩

/-- Whether a wrapper result is the structured error variant. -/
def isErr {α : Type} : Except Error α → Bool
  | .ok _ => false
  | .error _ => true

/-- Translated from `src/wrapper.rs` lines 43-53 (`dtrace_open`): call the
native open with an `errp` out-parameter; a null connection yields
`Err(Error::from(errp))`, otherwise the handle is wrapped and owned. -/
def dtrace_open (e : Engine) (version flags : Int) : Except Error Nat :=
  match e.openNative version flags with
  | (none, errp) => .error ⟨errp⟩
  | (some h, _) => .ok h

/-- Translated from `src/wrapper.rs` lines 62-67 (`dtrace_go`):
`0 => Ok(()), _ => Err(Error::from(self))`. -/
def dtrace_go (e : Engine) (h : Nat) : Except Error Unit :=
  if e.goNative h = 0 then .ok () else .error (Error.fromHandle e h)

/-- Translated from `src/wrapper.rs` lines 79-84 (`dtrace_stop`):
`0 => Ok(()), _ => Err(Error::from(self))`. -/
def dtrace_stop (e : Engine) (h : Nat) : Except Error Unit :=
  if e.stopNative h = 0 then .ok () else .error (Error.fromHandle e h)

/-- Translated from `src/wrapper.rs` lines 346-351 (`dtrace_status`):
`-1 => Err(Error::from(self)), status => Ok(dtrace_status::from(status as u32))`.
The `as u32` cast of the `c_int` is the value modulo `2 ^ 32`. -/
def dtrace_status (e : Engine) (h : Nat) : Except Error dtrace_status_t :=
  if e.statusNative h = -1 then .error (Error.fromHandle e h)
  else .ok ⟨(e.statusNative h % 2 ^ 32).toNat⟩

/-- Translated from `src/wrapper.rs` lines 512-517 (`dtrace_aggregate_snap`):
`0 => Ok(()), _ => Err(Error::from(self))`. -/
def dtrace_aggregate_snap (e : Engine) (h : Nat) : Except Error Unit :=
  if e.aggSnapNative h = 0 then .ok () else .error (Error.fromHandle e h)

/-- Translated from `src/wrapper.rs` lines 404-425 (`dtrace_work`): the
`file` and `arg` options become null pointers when absent; the native work
status is matched, `DTRACE_WORKSTATUS_ERROR` becomes `Err(Error::from(self))`
and every other status is returned as the success value. -/
def dtrace_work (e : Engine) (h : Nat) (file : Option Nat) (p_hldr r_hldr : Nat)
    (arg : Option Nat) : Except Error dtrace_workstatus_t :=
  match e.workNative h file p_hldr r_hldr arg with
  | .ERROR => .error (Error.fromHandle e h)
  | status => .ok status

/-- Translated from `src/wrapper.rs` lines 123-133 (`dtrace_errmsg`): a
missing handle becomes the null pointer; the returned C string is read and
converted with `to_str().unwrap()` — `none` models the panic on invalid
UTF-8. -/
def dtrace_errmsg (e : Engine) (handle : Option Nat) (errno : Int) : Option RStr :=
  cstr_to_str (e.errmsgNative handle errno)

/-- The engine-side option store of the fake backend: current integer value
of each option name. -/
def OptState := RStr → Int

/-- Modelled from the spec: native `dtrace_setopt` on the fake backend.  A
known option name parses and stores the value and returns `0`; an unknown
name fails with a nonzero status and leaves the store unchanged. -/
def setoptNative (e : Engine) (st : OptState) (name value : RStr) : Int × OptState :=
  if e.optKnown name then
    (0, fun n => if n = name then e.optParse value else st n)
  else (-1, st)

/-- Modelled from the spec: native `dtrace_getopt` on the fake backend.  A
known option name writes the stored value through the out-parameter and
returns `0`; an unknown name fails with a nonzero status. -/
def getoptNative (e : Engine) (st : OptState) (name : RStr) : Int × Int :=
  if e.optKnown name then (0, st name) else (-1, 0)

/-- Translated from `src/wrapper.rs` lines 148-155 (`dtrace_setopt`): both
strings go through `CString::new(..).unwrap()` (`none` models the panic),
then the native status is matched: `0 => Ok(()), _ => Err(Error::from(self))`.
The resulting engine option store is returned alongside. -/
def dtrace_setopt (e : Engine) (h : Nat) (st : OptState) (opt value : RStr) :
    Option (Except Error Unit × OptState) :=
  match cstring_new opt with
  | none => none
  | some copt =>
    match cstring_new value with
    | none => none
    | some cval =>
      if (setoptNative e st copt cval).1 = 0 then
        some (.ok (), (setoptNative e st copt cval).2)
      else some (.error (Error.fromHandle e h), (setoptNative e st copt cval).2)

/-- Translated from `src/wrapper.rs` lines 166-173 (`dtrace_getopt`): the
name goes through `CString::new(..).unwrap()` (`none` models the panic),
`optval` starts at `0`, then `0 => Ok(optval), _ => Err(Error::from(self))`. -/
def dtrace_getopt (e : Engine) (h : Nat) (st : OptState) (opt : RStr) :
    Option (Except Error Int) :=
  match cstring_new opt with
  | none => none
  | some copt =>
    if (getoptNative e st copt).1 = 0 then some (.ok (getoptNative e st copt).2)
    else some (.error (Error.fromHandle e h))

/-- Conversion of every argument through `CString::new(..).unwrap()` in
source order, as in the `argv` loop of `dtrace_program_strcompile`
(`src/wrapper.rs` lines 209-219); `none` models the first panic. -/
def mapOption {α β : Type} (f : α → Option β) : List α → Option (List β)
  | [] => some []
  | a :: rest =>
    match f a with
    | none => none
    | some b =>
      match mapOption f rest with
      | none => none
      | some bs => some (b :: bs)

/-- Translated from `src/wrapper.rs` lines 199-238 (`dtrace_program_strcompile`):
the program text and every macro argument go through
`CString::new(..).unwrap()` (`none` models the panic); absent `args` become
`argc = 0, argv = null`; a null program pointer from the native compile
yields `Err(Error::from(self))`, otherwise the program is returned. -/
def dtrace_program_strcompile (e : Engine) (h : Nat) (program : RStr)
    (spec flags : Nat) (args : Option (List RStr)) : Option (Except Error Nat) :=
  match cstring_new program with
  | none => none
  | some cprog =>
    match (match args with
           | none => some ((0 : Nat), ([] : List RStr))
           | some as => (mapOption cstring_new as).map fun argv => (argv.length, argv)) with
    | none => none
    | some (argc, argv) =>
      match e.strcompileNative h cprog spec flags argc argv with
      | none => some (.error (Error.fromHandle e h))
      | some p => some (.ok p)

/-- Modelled from the spec: the visit sequence of native `dtrace_stmt_iter`
over the program's statement descriptors — statements are visited in
declared order, and a nonzero return from the visitor short-circuits the
iteration without consuming the remaining statements. -/
def stmtIterVisits (visitor : Nat → Int) : List Nat → List Nat
  | [] => []
  | s :: rest => if visitor s = 0 then s :: stmtIterVisits visitor rest else [s]

/-- Modelled from the spec: native `dtrace_stmt_iter` returns nonzero exactly
when the engine itself fails; a visitor-requested stop is not an engine
failure, so a completed or visitor-stopped iteration returns `0`. -/
def stmtIterNative (engineStatus : Int) (stmts : List Nat) (visitor : Nat → Int) :
    Int × List Nat :=
  if engineStatus = 0 then (0, stmtIterVisits visitor stmts) else (engineStatus, [])

/-- Translated from `src/wrapper.rs` lines 320-335 (`dtrace_stmt_iter`):
the native status is matched, `0 => Ok(()), _ => Err(Error::from(self))`.
The visit sequence produced by the native iteration is returned alongside
as the observable trace. -/
def dtrace_stmt_iter (e : Engine) (h : Nat) (stmts : List Nat) (visitor : Nat → Int) :
    Except Error Unit × List Nat :=
  (if (stmtIterNative (e.stmtIterStatus h) stmts visitor).1 = 0 then .ok ()
   else .error (Error.fromHandle e h),
   (stmtIterNative (e.stmtIterStatus h) stmts visitor).2)

/-- Translated from `src/wrapper.rs` lines 575-603: which native comparator
walk each ordering policy dispatches to.  `None` uses the unsorted walk,
`Sorted` and `ValSorted` both use the default sorted walk, and the other
seven policies each use their own native walk. -/
def walkFor : dtrace_aggwalk_order → WalkKind
  | .None => .unsorted
  | .Sorted => .sorted
  | .ValSorted => .sorted
  | .KeySorted => .keysorted
  | .KeyVarSorted => .keyvarsorted
  | .ValVarSorted => .valvarsorted
  | .KeyRevSorted => .keyrevsorted
  | .ValRevSorted => .valrevsorted
  | .KeyVarRevSorted => .keyvarrevsorted
  | .ValVarRevSorted => .valvarrevsorted

/-- Keys ascending. -/
def keyLe (a b : AggRecord) : Prop := a.key ≤ b.key

/-- Keys descending. -/
def keyGe (a b : AggRecord) : Prop := b.key ≤ a.key

/-- Values ascending. -/
def valLe (a b : AggRecord) : Prop := a.value ≤ b.value

/-- Values descending. -/
def valGe (a b : AggRecord) : Prop := b.value ≤ a.value

instance : DecidableRel keyLe := fun a b => Int.decLe a.key b.key

instance : DecidableRel keyGe := fun a b => Int.decLe b.key a.key

instance : DecidableRel valLe := fun a b => Int.decLe a.value b.value

instance : DecidableRel valGe := fun a b => Int.decLe b.value a.value

instance : IsTotal AggRecord keyLe := ⟨fun a b => Int.le_total a.key b.key⟩

instance : IsTrans AggRecord keyLe := ⟨fun _ _ _ hab hbc => le_trans hab hbc⟩

instance : IsTotal AggRecord keyGe := ⟨fun a b => Int.le_total b.key a.key⟩

instance : IsTrans AggRecord keyGe := ⟨fun _ _ _ hab hbc => le_trans hbc hab⟩

/-- Modelled from the spec: the visit order each native comparator walk
produces over the snapshotted aggregation set.  The unsorted walk visits in
arbitrary/insertion order (the snapshot order); the default sorted walk uses
the value comparator ("equivalent to value-sorted"); key/value walks sort by
key/value ascending and the reverse walks descending.  The variant walks
account for multi-value payloads, which are opaque at this layer, so they
are modelled with the same key/value comparators. -/
def walkOrderVisits (snap : List AggRecord) : WalkKind → List AggRecord
  | .unsorted => snap
  | .sorted => List.insertionSort valLe snap
  | .keysorted => List.insertionSort keyLe snap
  | .keyvarsorted => List.insertionSort keyLe snap
  | .valvarsorted => List.insertionSort valLe snap
  | .keyrevsorted => List.insertionSort keyGe snap
  | .valrevsorted => List.insertionSort valGe snap
  | .keyvarrevsorted => List.insertionSort keyGe snap
  | .valvarrevsorted => List.insertionSort valGe snap

/-- The visit sequence of `dtrace_aggregate_walk` (`src/wrapper.rs` lines
563-611): the ordering policy selects the native walk, which visits the
snapshotted records in its comparator's order. -/
def dtrace_aggregate_walk (snap : List AggRecord) (order : dtrace_aggwalk_order) :
    List AggRecord :=
  walkOrderVisits snap (walkFor order)

/-- Native-call events observable at the engine boundary during a session
scope. -/
inductive NativeEvent
  | openEv
  | closeEv (h : Nat)
  | goEv (h : Nat)
  | stopEv (h : Nat)
  | statusEv (h : Nat)
  | sleepEv (h : Nat)
  | aggSnapEv (h : Nat)
  | workEv (h : Nat)
  deriving DecidableEq

/-- Whether an event is a `dtrace_close` call. -/
def isCloseEv : NativeEvent → Bool
  | .closeEv _ => true
  | _ => false

/-- The lifecycle calls a caller may make between `dtrace_open` and the end
of the owning scope. -/
inductive LifecycleOp
  | go
  | stop
  | statusOp
  | sleep
  | aggSnap
  | work
  deriving DecidableEq

/-- The single native call each lifecycle wrapper method performs
(`src/wrapper.rs`: `dtrace_go` 62-67, `dtrace_stop` 79-84, `dtrace_status`
346-351, `dtrace_sleep` 97-101, `dtrace_aggregate_snap` 512-517,
`dtrace_work` 404-425).  None of them calls `dtrace_close`: in the whole of
`src/wrapper.rs` the only `dtrace_close` call is in `Drop` (lines 16-22). -/
def opEvent (h : Nat) : LifecycleOp → NativeEvent
  | .go => .goEv h
  | .stop => .stopEv h
  | .statusOp => .statusEv h
  | .sleep => .sleepEv h
  | .aggSnap => .aggSnapEv h
  | .work => .workEv h

/-- Whether the wrapper call for this lifecycle op returns `Err` (making the
caller's `?` take the early-return path).  The criteria are those of the
wrapper methods themselves; `dtrace_sleep` returns no result and never
fails. -/
def opFails (e : Engine) (h : Nat) : LifecycleOp → Bool
  | .go => isErr (dtrace_go e h)
  | .stop => isErr (dtrace_stop e h)
  | .statusOp => isErr (dtrace_status e h)
  | .sleep => false
  | .aggSnap => isErr (dtrace_aggregate_snap e h)
  | .work => isErr (dtrace_work e h none 0 0 none)

/-- Native events of a run of lifecycle calls under Rust `?` semantics: each
call performs its native call; the first failing call ends the run early. -/
def runOps (e : Engine) (h : Nat) : List LifecycleOp → List NativeEvent
  | [] => []
  | op :: rest =>
    opEvent h op :: (if opFails e h op then [] else runOps e h rest)

/-- Shallow embedding of a session scope under Rust ownership: `dtrace_open`
(`src/wrapper.rs` lines 43-53) runs first; if it fails no handle exists and
nothing is dropped; if it succeeds the handle owns the connection and
`Drop for dtrace_hdl` (lines 16-22) calls `dtrace_close` exactly at scope
exit — after the intervening calls, on both the normal path and every
early-error path. -/
def runSession (e : Engine) (version flags : Int) (ops : List LifecycleOp) :
    List NativeEvent :=
  match e.openNative version flags with
  | (none, _) => [.openEv]
  | (some h, _) => .openEv :: (runOps e h ops ++ [.closeEv h])

/-- A concrete fake engine backend on which every native call succeeds; used
to exercise the theorems on closed inputs. -/
def engA : Engine where
  openNative := fun _ _ => (some 1, 0)
  errnoNative := fun _ => 7
  goNative := fun _ => 0
  stopNative := fun _ => 0
  statusNative := fun _ => 4
  aggSnapNative := fun _ => 0
  workNative := fun _ _ _ _ _ => .OKAY
  stmtIterStatus := fun _ => 0
  strcompileNative := fun _ _ _ _ _ _ => some 2
  optKnown := fun n => n == [97]
  optParse := fun v => (v.length : Int)
  globalMsg := fun _ => [104, 105]
  sessionSpecific := fun _ _ => false
  sessionMsg := fun _ _ => [106]

/-- A concrete fake engine backend on which the native calls fail; used to
exercise the error paths on closed inputs. -/
def engB : Engine where
  openNative := fun _ _ => (none, 12)
  errnoNative := fun _ => 9
  goNative := fun _ => 1
  stopNative := fun _ => 1
  statusNative := fun _ => -1
  aggSnapNative := fun _ => 1
  workNative := fun _ _ _ _ _ => .ERROR
  stmtIterStatus := fun _ => 8
  strcompileNative := fun _ _ _ _ _ _ => none
  optKnown := fun _ => false
  optParse := fun _ => 0
  globalMsg := fun _ => [255]
  sessionSpecific := fun _ _ => false
  sessionMsg := fun _ _ => [106]

theorem runOps_no_close (e : Engine) (h : Nat) (ops : List LifecycleOp) :
    (runOps e h ops).countP isCloseEv = 0 := by
  induction ops with
  | nil => rfl
  | cons op rest ih =>
    have hop : isCloseEv (opEvent h op) = false := by cases op <;> rfl
    by_cases hf : opFails e h op = true
    · simp [runOps, hf, List.countP_cons, hop]
    · simp [runOps, hf, List.countP_cons, hop, ih]

/-- C1: for every session handle created by a successful `dtrace_open`, the
native connection is released by exactly one `dtrace_close` call, made when
the owning handle is destroyed at scope exit, on the normal path and on
every early-error path through the intervening lifecycle calls. -/
theorem dtrace_close_exactly_once (e : Engine) (version flags : Int)
    (ops : List LifecycleOp) (h : Nat) (errp : Int)
    (hopen : e.openNative version flags = (some h, errp)) :
    (runSession e version flags ops).countP isCloseEv = 1 := by
  simp [runSession, hopen, List.countP_append, List.countP_cons, isCloseEv,
    runOps_no_close]

/-- Witness for C1 on the concrete backend: the open succeeds and the whole
session scope performs exactly one close. -/
theorem dtrace_close_exactly_once_witness :
    engA.openNative 3 0 = (some 1, 0) ∧
    (runSession engA 3 0 [.go, .statusOp, .stop]).countP isCloseEv = 1 :=
  ⟨rfl, dtrace_close_exactly_once engA 3 0 [.go, .statusOp, .stop] 1 0 rfl⟩

/-- C2: `dtrace_work` returns this layer's error exactly when the native
work call reports the Error status; Okay and Done are returned as success
values, never as errors. -/
theorem dtrace_work_error_iff (e : Engine) (h : Nat) (file : Option Nat)
    (p_hldr r_hldr : Nat) (arg : Option Nat) :
    (isErr (dtrace_work e h file p_hldr r_hldr arg) = true ↔
      e.workNative h file p_hldr r_hldr arg = .ERROR) ∧
    (∀ s : dtrace_workstatus_t, s ≠ .ERROR →
      e.workNative h file p_hldr r_hldr arg = s →
      dtrace_work e h file p_hldr r_hldr arg = .ok s) := by
  constructor
  · cases hw : e.workNative h file p_hldr r_hldr arg <;>
      simp [dtrace_work, hw, isErr]
  · intro s hs hw
    cases s <;> simp_all [dtrace_work]

/-- Witness for C2: Okay surfaces as a success value, and on the failing
backend the error characterization holds. -/
theorem dtrace_work_error_iff_witness :
    dtrace_work engA 1 none 0 0 none = .ok .OKAY ∧
    (isErr (dtrace_work engB 1 none 0 0 none) = true ↔
      engB.workNative 1 none 0 0 none = .ERROR) :=
  ⟨(dtrace_work_error_iff engA 1 none 0 0 none).2 .OKAY (by decide) rfl,
   (dtrace_work_error_iff engB 1 none 0 0 none).1⟩

/-- C3: `dtrace_aggregate_walk` dispatches the ordering policies onto
exactly nine native comparator walks: `None` to the unsorted walk, `Sorted`
and `ValSorted` both to the default (value-)sorted walk, and each remaining
policy to its own distinct walk; under `KeySorted` keys are visited
ascending, under `KeyRevSorted` descending, and under `None` every record of
the snapshot is visited exactly once, order unconstrained. -/
theorem dtrace_aggregate_walk_dispatch (snap : List AggRecord) :
    Fintype.card WalkKind = 9 ∧
    Function.Surjective walkFor ∧
    walkFor .None = .unsorted ∧
    walkFor .Sorted = .sorted ∧
    walkFor .ValSorted = .sorted ∧
    walkFor .KeySorted = .keysorted ∧
    walkFor .KeyVarSorted = .keyvarsorted ∧
    walkFor .ValVarSorted = .valvarsorted ∧
    walkFor .KeyRevSorted = .keyrevsorted ∧
    walkFor .ValRevSorted = .valrevsorted ∧
    walkFor .KeyVarRevSorted = .keyvarrevsorted ∧
    walkFor .ValVarRevSorted = .valvarrevsorted ∧
    List.Sorted keyLe (dtrace_aggregate_walk snap .KeySorted) ∧
    (dtrace_aggregate_walk snap .KeySorted).Perm snap ∧
    List.Sorted keyGe (dtrace_aggregate_walk snap .KeyRevSorted) ∧
    (dtrace_aggregate_walk snap .KeyRevSorted).Perm snap ∧
    dtrace_aggregate_walk snap .None = snap := by
  refine ⟨by decide, ?_, rfl, rfl, rfl, rfl, rfl, rfl, rfl, rfl, rfl, rfl,
    ?_, ?_, ?_, ?_, rfl⟩
  · intro w
    cases w with
    | unsorted => exact ⟨.None, rfl⟩
    | sorted => exact ⟨.Sorted, rfl⟩
    | keysorted => exact ⟨.KeySorted, rfl⟩
    | keyvarsorted => exact ⟨.KeyVarSorted, rfl⟩
    | valvarsorted => exact ⟨.ValVarSorted, rfl⟩
    | keyrevsorted => exact ⟨.KeyRevSorted, rfl⟩
    | valrevsorted => exact ⟨.ValRevSorted, rfl⟩
    | keyvarrevsorted => exact ⟨.KeyVarRevSorted, rfl⟩
    | valvarrevsorted => exact ⟨.ValVarRevSorted, rfl⟩
  · exact List.sorted_insertionSort keyLe snap
  · exact List.perm_insertionSort keyLe snap
  · exact List.sorted_insertionSort keyGe snap
  · exact List.perm_insertionSort keyGe snap

/-- C4: `dtrace_status` errors exactly when the native status round-trip
returns the `-1` sentinel; every other native value is returned as a status
snapshot built from the value cast to `u32`. -/
theorem dtrace_status_error_iff (e : Engine) (h : Nat) :
    (isErr (dtrace_status e h) = true ↔ e.statusNative h = -1) ∧
    (e.statusNative h ≠ -1 →
      dtrace_status e h = .ok ⟨(e.statusNative h % 2 ^ 32).toNat⟩) := by
  constructor
  · by_cases hs : e.statusNative h = -1 <;> simp [dtrace_status, hs, isErr]
  · intro hs
    simp [dtrace_status, hs]

/-- Witness for C4: a non-sentinel status becomes a snapshot, and the
failing backend's `-1` is the error case. -/
theorem dtrace_status_error_iff_witness :
    dtrace_status engA 1 = .ok ⟨4⟩ ∧
    (isErr (dtrace_status engB 1) = true ↔ engB.statusNative 1 = -1) := by
  refine ⟨?_, (dtrace_status_error_iff engB 1).1⟩
  have h1 := (dtrace_status_error_iff engA 1).2 (by decide)
  rw [h1]
  rfl

/-- C5: `dtrace_open` returns an owning handle exactly when the native open
returns a non-null connection; on a null connection it returns the error
built from the engine-supplied `errp` code and no handle exists. -/
theorem dtrace_open_spec (e : Engine) (version flags : Int) :
    (∀ h errp, e.openNative version flags = (some h, errp) →
      dtrace_open e version flags = .ok h) ∧
    (∀ errp, e.openNative version flags = (none, errp) →
      dtrace_open e version flags = .error ⟨errp⟩) ∧
    ((∃ h, dtrace_open e version flags = .ok h) ↔
      (e.openNative version flags).1 ≠ none) := by
  refine ⟨?_, ?_, ?_⟩
  · intro h errp hov
    simp [dtrace_open, hov]
  · intro errp hov
    simp [dtrace_open, hov]
  · cases hov : e.openNative version flags with
    | mk ho he => cases ho <;> simp [dtrace_open, hov]

/-- Witness for C5: a non-null native open yields the owning handle; a null
one yields the error carrying the engine's code. -/
theorem dtrace_open_spec_witness :
    dtrace_open engA 3 0 = .ok 1 ∧ dtrace_open engB 3 0 = .error ⟨12⟩ :=
  ⟨(dtrace_open_spec engA 3 0).1 1 0 rfl, (dtrace_open_spec engB 3 0).2.1 12 rfl⟩

theorem stmtIterVisits_stop (visitor : Nat → Int) (pre : List Nat) :
    ∀ s post, (∀ t ∈ pre, visitor t = 0) → visitor s ≠ 0 →
      stmtIterVisits visitor (pre ++ s :: post) = pre ++ [s] := by
  induction pre with
  | nil =>
    intro s post _ hs
    simp [stmtIterVisits, hs]
  | cons a rest ih =>
    intro s post hpre hs
    have ha : visitor a = 0 := hpre a (by simp)
    simp [stmtIterVisits, ha, ih s post (fun t ht => hpre t (by simp [ht])) hs]

/-- C6: `dtrace_stmt_iter` errors exactly when the native iteration reports
a nonzero status; when the engine succeeds the call is not an error even if
the visitor requests a stop, and that stop short-circuits the visit sequence
immediately after the stopping statement. -/
theorem dtrace_stmt_iter_spec (e : Engine) (h : Nat) (stmts : List Nat)
    (visitor : Nat → Int) :
    (isErr (dtrace_stmt_iter e h stmts visitor).1 = true ↔
      e.stmtIterStatus h ≠ 0) ∧
    (e.stmtIterStatus h = 0 →
      isErr (dtrace_stmt_iter e h stmts visitor).1 = false ∧
      ∀ pre s post, stmts = pre ++ s :: post → (∀ t ∈ pre, visitor t = 0) →
        visitor s ≠ 0 → (dtrace_stmt_iter e h stmts visitor).2 = pre ++ [s]) := by
  constructor
  · by_cases hes : e.stmtIterStatus h = 0 <;>
      simp [dtrace_stmt_iter, stmtIterNative, hes, isErr]
  · intro hes
    constructor
    · simp [dtrace_stmt_iter, stmtIterNative, hes, isErr]
    · intro pre s post hstmts hpre hs
      subst hstmts
      simp [dtrace_stmt_iter, stmtIterNative, hes,
        stmtIterVisits_stop visitor pre s post hpre hs]

/-- Witness for C6: the visitor stops at statement 20 of a three-statement
program, visits are exactly [10, 20] with no error; the failing engine makes
the call an error. -/
theorem dtrace_stmt_iter_spec_witness :
    (dtrace_stmt_iter engA 1 [10, 20, 30] (fun s => if s = 20 then 1 else 0)).2
      = [10, 20] ∧
    isErr (dtrace_stmt_iter engB 1 [10, 20, 30]
      (fun s => if s = 20 then 1 else 0)).1 = true := by
  constructor
  · exact ((dtrace_stmt_iter_spec engA 1 [10, 20, 30]
      (fun s => if s = 20 then 1 else 0)).2 rfl).2 [10] 20 [30] rfl
      (by decide) (by decide)
  · exact (dtrace_stmt_iter_spec engB 1 [10, 20, 30]
      (fun s => if s = 20 then 1 else 0)).1.mpr (by decide)

/-- C7: on the fake backend, for a name the engine accepts a successful
`dtrace_setopt` immediately followed by `dtrace_getopt` returns the value
reinterpreted in the engine's integer form; for an unknown name both calls
fail with an engine error. -/
theorem setopt_getopt_roundtrip (e : Engine) (h : Nat) (st : OptState)
    (name value : RStr) (hn : 0 ∉ name) (hv : 0 ∉ value) :
    (e.optKnown name = true →
      ∃ st2, dtrace_setopt e h st name value = some (.ok (), st2) ∧
        dtrace_getopt e h st2 name = some (.ok (e.optParse value))) ∧
    (e.optKnown name = false →
      dtrace_setopt e h st name value = some (.error (Error.fromHandle e h), st) ∧
      dtrace_getopt e h st name = some (.error (Error.fromHandle e h))) := by
  constructor
  · intro hk
    refine ⟨fun n => if n = name then e.optParse value else st n, ?_, ?_⟩
    · simp [dtrace_setopt, cstring_new, hn, hv, setoptNative, hk]
    · simp [dtrace_getopt, cstring_new, hn, getoptNative, hk]
  · intro hk
    constructor
    · simp [dtrace_setopt, cstring_new, hn, hv, setoptNative, hk]
    · simp [dtrace_getopt, cstring_new, hn, getoptNative, hk]

/-- Witness for C7: on the accepting backend the round-trip returns the
parsed value; on the rejecting backend both directions fail. -/
theorem setopt_getopt_roundtrip_witness :
    (∃ st2, dtrace_setopt engA 1 (fun _ => 0) [97] [98, 99] = some (.ok (), st2) ∧
      dtrace_getopt engA 1 st2 [97] = some (.ok (engA.optParse [98, 99]))) ∧
    dtrace_setopt engB 1 (fun _ => 0) [97] [98, 99]
      = some (.error (Error.fromHandle engB 1), fun _ => 0) ∧
    dtrace_getopt engB 1 (fun _ => 0) [97] = some (.error (Error.fromHandle engB 1)) :=
  ⟨(setopt_getopt_roundtrip engA 1 (fun _ => 0) [97] [98, 99]
      (by decide) (by decide)).1 rfl,
   (setopt_getopt_roundtrip engB 1 (fun _ => 0) [97] [98, 99]
      (by decide) (by decide)).2 rfl⟩

/-- C8: for an error code not specific to the session, `dtrace_errmsg` with
no handle and with the session handle return identical message text. -/
theorem errmsg_global_session_agree (e : Engine) (s : Nat) (code : Int)
    (hcode : e.sessionSpecific s code = false) :
    dtrace_errmsg e none code = dtrace_errmsg e (some s) code := by
  simp [dtrace_errmsg, Engine.errmsgNative, hcode]

/-- Witness for C8 on the concrete backend and a fresh session handle. -/
theorem errmsg_global_session_agree_witness :
    dtrace_errmsg engA none 5 = dtrace_errmsg engA (some 1) 5 :=
  errmsg_global_session_agree engA 1 5 rfl

theorem mapOption_eq_none {α β : Type} (f : α → Option β) (as : List α) (a : α)
    (ha : a ∈ as) (hf : f a = none) : mapOption f as = none := by
  induction as with
  | nil => cases ha
  | cons b bs ih =>
    rcases List.mem_cons.mp ha with hb | hb
    · subst hb
      simp [mapOption, hf]
    · cases hfb : f b <;> simp [mapOption, hfb, ih hb]

theorem mapOption_isSome {α β : Type} (f : α → Option β) (as : List α)
    (hall : ∀ a ∈ as, (f a).isSome = true) : (mapOption f as).isSome = true := by
  induction as with
  | nil => rfl
  | cons b bs ih =>
    have hb := hall b (by simp)
    cases hfb : f b with
    | none => simp [hfb] at hb
    | some v =>
      have hrest := ih (fun a ha => hall a (by simp [ha]))
      cases hrec : mapOption f bs with
      | none => simp [hrec] at hrest
      | some bs2 => simp [mapOption, hfb, hrec]

/-- C9: an input containing a NUL byte makes `dtrace_setopt` (option or
value), `dtrace_getopt` (option) and `dtrace_program_strcompile` (program
source or any macro argument) panic through the unwrapped `CString`
construction (modelled as `none`) instead of returning the structured
`Error`; with NUL-free string arguments the operations are total. -/
theorem nul_input_panics (e : Engine) (h : Nat) (st : OptState)
    (name value program : RStr) (spec flags : Nat) (args : Option (List RStr)) :
    (0 ∈ name → dtrace_setopt e h st name value = none) ∧
    (0 ∈ value → dtrace_setopt e h st name value = none) ∧
    (0 ∈ name → dtrace_getopt e h st name = none) ∧
    (0 ∈ program → dtrace_program_strcompile e h program spec flags args = none) ∧
    (∀ as a, args = some as → a ∈ as → 0 ∈ a →
      dtrace_program_strcompile e h program spec flags args = none) ∧
    (0 ∉ name → 0 ∉ value → (dtrace_setopt e h st name value).isSome = true) ∧
    (0 ∉ name → (dtrace_getopt e h st name).isSome = true) ∧
    (0 ∉ program → (∀ as a, args = some as → a ∈ as → 0 ∉ a) →
      (dtrace_program_strcompile e h program spec flags args).isSome = true) := by
  refine ⟨?_, ?_, ?_, ?_, ?_, ?_, ?_, ?_⟩
  · intro hn
    simp [dtrace_setopt, cstring_new, hn]
  · intro hv
    by_cases hn : 0 ∈ name <;> simp [dtrace_setopt, cstring_new, hn, hv]
  · intro hn
    simp [dtrace_getopt, cstring_new, hn]
  · intro hp
    simp [dtrace_program_strcompile, cstring_new, hp]
  · intro as a hargs ha hna
    subst hargs
    by_cases hp : 0 ∈ program
    · simp [dtrace_program_strcompile, cstring_new, hp]
    · have hcn : cstring_new a = none := by simp [cstring_new, hna]
      simp [dtrace_program_strcompile, cstring_new, hp,
        mapOption_eq_none cstring_new as a ha hcn]
  · intro hn hv
    by_cases hk : (setoptNative e st name value).1 = 0 <;>
      simp [dtrace_setopt, cstring_new, hn, hv, hk]
  · intro hn
    by_cases hk : (getoptNative e st name).1 = 0 <;>
      simp [dtrace_getopt, cstring_new, hn, hk]
  · intro hp hargs
    cases args with
    | none =>
      cases hc : e.strcompileNative h program spec flags 0 [] <;>
        simp [dtrace_program_strcompile, cstring_new, hp, hc]
    | some as =>
      have hsome : (mapOption cstring_new as).isSome = true :=
        mapOption_isSome cstring_new as
          (fun a ha => by simp [cstring_new, hargs as a rfl ha])
      obtain ⟨argv, hargv⟩ := Option.isSome_iff_exists.mp hsome
      cases hc : e.strcompileNative h program spec flags argv.length argv <;>
        simp [dtrace_program_strcompile, cstring_new, hp, hargv, hc]

/-- Witness for C9: a NUL byte in each input position panics, and NUL-free
inputs stay total. -/
theorem nul_input_panics_witness :
    dtrace_setopt engA 1 (fun _ => 0) [0] [98] = none ∧
    dtrace_setopt engA 1 (fun _ => 0) [97] [0] = none ∧
    dtrace_getopt engA 1 (fun _ => 0) [0] = none ∧
    dtrace_program_strcompile engA 1 [0] 0 0 none = none ∧
    dtrace_program_strcompile engA 1 [98] 0 0 (some [[0]]) = none ∧
    (dtrace_setopt engA 1 (fun _ => 0) [97] [98]).isSome = true :=
  ⟨(nul_input_panics engA 1 (fun _ => 0) [0] [98] [99] 0 0 none).1 (by decide),
   (nul_input_panics engA 1 (fun _ => 0) [97] [0] [99] 0 0 none).2.1 (by decide),
   (nul_input_panics engA 1 (fun _ => 0) [0] [98] [99] 0 0 none).2.2.1 (by decide),
   (nul_input_panics engA 1 (fun _ => 0) [97] [98] [0] 0 0 none).2.2.2.1 (by decide),
   (nul_input_panics engA 1 (fun _ => 0) [97] [98] [98] 0 0
      (some [[0]])).2.2.2.2.1 [[0]] [0] rfl (by decide) (by decide),
   (nul_input_panics engA 1 (fun _ => 0) [97] [98] [99] 0 0 none).2.2.2.2.2.1
      (by decide) (by decide)⟩

/-- C10: `dtrace_errmsg` never returns a structured error value: when the
engine's message is a valid UTF-8 C string its text is returned unchanged,
and when it is not the call panics through the unwrap (`none`). -/
theorem errmsg_utf8_total (e : Engine) (handle : Option Nat) (code : Int) :
    (utf8Valid (e.errmsgNative handle code) = true →
      dtrace_errmsg e handle code = some (e.errmsgNative handle code)) ∧
    (utf8Valid (e.errmsgNative handle code) = false →
      dtrace_errmsg e handle code = none) := by
  constructor
  · intro hv
    simp [dtrace_errmsg, cstr_to_str, hv]
  · intro hv
    simp [dtrace_errmsg, cstr_to_str, hv]

/-- Witness for C10: a valid-UTF-8 message is returned unchanged; an invalid
one panics. -/
theorem errmsg_utf8_total_witness :
    dtrace_errmsg engA none 3 = some [104, 105] ∧
    dtrace_errmsg engB none 3 = none :=
  ⟨(errmsg_utf8_total engA none 3).1 (by decide),
   (errmsg_utf8_total engB none 3).2 (by decide)⟩
